import Mathlib

/-!
Shallow embedding of the browser-side view controller in
`src/frontend/js/app.js` (Global Stock Analyzer front end).

JavaScript numbers are modelled as rationals (`ℚ`); optional JSON fields as
`Option ℚ`; DOM containers as named `String` fields of a record; each async
handler as a pure function from its inputs (user input, fetch outcome,
prior state) to the state and DOM effects it produces.
-/

/-- `AnalysisResult`: the JSON record returned by `GET /analyze/{query}`. -/
structure AnalysisResult where
  symbol : String
  company_name : String
  exchange : String
  decision : String
  explanation : String
  sentiment_score : ℚ
  price_change_6m : ℚ
deriving DecidableEq, Repr

/-- `MetricsSnapshot`: the JSON record returned by `GET /metrics/{symbol}`.
The last five fields are optional in the response (`undefined` when absent). -/
structure MetricsSnapshot where
  current_price : ℚ
  currency : String
  day_change : ℚ
  day_change_pct : ℚ
  high_52w : Option ℚ
  low_52w : Option ℚ
  market_cap : Option ℚ
  volume : Option ℚ
  pe_ratio : Option ℚ
deriving DecidableEq, Repr

-- ========================================
-- JavaScript string primitives
-- ========================================

/-- JavaScript's `String.prototype.toLowerCase()`, modelled over the string's
character list (the source only lowercases the ASCII decision strings). -/
def strToLower (s : String) : String :=
  String.mk (s.data.map Char.toLower)

/-- JavaScript's `String.prototype.trim()`: leading and trailing whitespace
removed, modelled over the string's character list. -/
def strTrim (s : String) : String :=
  String.mk
    (((s.data.dropWhile Char.isWhitespace).reverse.dropWhile Char.isWhitespace).reverse)

-- ========================================
-- displayResults (app.js lines 133-159)
-- ========================================

/-- The chart-up emoji written at app.js line 147. -/
def chartUpIcon : String := "📈"

/-- The chart-down emoji written at app.js line 149. -/
def chartDownIcon : String := "📉"

/-- The pause emoji written at app.js line 151. -/
def pauseIcon : String := "⏸️"

/-- The DOM writes `displayResults` performs on the decision banner and the
explanation block. -/
structure BannerRender where
  resultsDisplay : String
  className : String
  icon : String
  title : String
  subtitle : String
  explanationText : String
deriving DecidableEq, Repr

/-- `displayResults(data)` from app.js lines 133-159: sets the banner class to
`'decision-banner decision-' + data.decision.toLowerCase()`, picks the icon by
`if (data.decision === 'BUY') ... else if (data.decision === 'SELL') ... else ...`,
and fills title, subtitle and explanation. -/
def displayResults (data : AnalysisResult) : BannerRender :=
  { resultsDisplay := "block"
    className := "decision-banner decision-" ++ strToLower data.decision
    icon :=
      if data.decision == "BUY" then chartUpIcon
      else if data.decision == "SELL" then chartDownIcon
      else pauseIcon
    title := data.decision ++ " - " ++ data.symbol
    subtitle := data.company_name ++ " | " ++ data.exchange
    explanationText := data.explanation }

-- ========================================
-- sentiment bar width (app.js line 178)
-- ========================================

/-- `const sentimentPercent = ((sentimentScore + 1) / 2) * 100;`
(app.js line 178). -/
def sentimentPercent (sentimentScore : ℚ) : ℚ :=
  ((sentimentScore + 1) / 2) * 100

-- ========================================
-- compareStocks (app.js lines 372-417)
-- ========================================

/-- An HTTP request issued through `fetch`. -/
inductive Request where
  | get (path : String)
  | post (path : String) (stocks : List String)
deriving DecidableEq, Repr

/-- What a `compareStocks` run does before any rendering: either one of the
two blocking alerts, or the single `POST /compare` request. -/
inductive CompareOutcome where
  | alertAtLeast2
  | alertMax4
  | request (r : Request)
deriving DecidableEq, Repr

/-- app.js lines 373-378: the four fixed input slots are read, trimmed, and
empty strings are filtered out. -/
def collectStocks (input1 input2 input3 input4 : String) : List String :=
  [strTrim input1, strTrim input2, strTrim input3, strTrim input4].filter (fun s => s != "")

/-- `compareStocks()` from app.js lines 372-417, up to the network call:
fewer than 2 collected entries alerts and returns, more than 4 alerts and
returns, otherwise the collected list is posted to `/compare`. -/
def compareStocks (input1 input2 input3 input4 : String) : CompareOutcome :=
  let stocks := collectStocks input1 input2 input3 input4
  if stocks.length < 2 then CompareOutcome.alertAtLeast2
  else if stocks.length > 4 then CompareOutcome.alertMax4
  else CompareOutcome.request (Request.post "/compare" stocks)

-- ========================================
-- analyzeStock (app.js lines 79-127)
-- ========================================

/-- Outcome of one `fetch(...).json()` round-trip as `analyzeStock` sees it:
the network request can throw, the response can have `ok` false (app.js line 97
turns that into a thrown error), the body can fail to parse, or a record is
returned. -/
inductive FetchResult (α : Type) where
  | networkError
  | notOk
  | badBody
  | ok (data : α)
deriving DecidableEq, Repr

/-- The module-level session state of app.js lines 10-11:
`let currentSymbol = null; let currentCompanyName = null;`. -/
structure SessionState where
  currentSymbol : Option String
  currentCompanyName : Option String
deriving DecidableEq, Repr

/-- The analyze button's DOM state: `disabled`, the `.btn-text` display style
and the `.btn-loader` display style. -/
structure ButtonState where
  disabled : Bool
  btnTextDisplay : String
  btnLoaderDisplay : String
deriving DecidableEq, Repr

/-- The state the `finally` block of `analyzeStock` restores (app.js lines
122-125): enabled, text `inline`, loader `none`. This is also the page's
initial idle state. -/
def idleButton : ButtonState :=
  { disabled := false, btnTextDisplay := "inline", btnLoaderDisplay := "none" }

/-- The user-visible outcome of one `analyzeStock` run. -/
inductive AnalyzeOutcome where
  | alertEmptyInput
  | alertNotFound
  | success (data : AnalysisResult)
deriving DecidableEq, Repr

/-- Everything one terminated `analyzeStock` run leaves behind. -/
structure AnalyzeRun where
  session : SessionState
  button : ButtonState
  outcome : AnalyzeOutcome
deriving DecidableEq, Repr

/-- `analyzeStock()` from app.js lines 79-127. The input is trimmed; an empty
result alerts and returns before the button is ever disabled. Otherwise the
button is disabled and shows its loader for the duration of the request; on a
successful lookup `currentSymbol`/`currentCompanyName` are overwritten from the
response (lines 104-105); on any failure the catch alerts and the session
state is never assigned. The `finally` block restores the idle button state on
both paths. -/
def analyzeStock (stockInput : String) (lookup : FetchResult AnalysisResult)
    (st : SessionState) (btn : ButtonState) : AnalyzeRun :=
  if strTrim stockInput == "" then
    { session := st, button := btn, outcome := AnalyzeOutcome.alertEmptyInput }
  else
    match lookup with
    | FetchResult.ok data =>
        { session :=
            { currentSymbol := some data.symbol
              currentCompanyName := some data.company_name }
          button := idleButton
          outcome := AnalyzeOutcome.success data }
    | _ =>
        { session := st, button := idleButton
          outcome := AnalyzeOutcome.alertNotFound }

-- ========================================
-- loadChart (app.js lines 245-333)
-- ========================================

/-- The chart-related state: the module variable `currentChart` (app.js line
9), and the set of Chart.js instances created so far and not yet destroyed,
identified by creation order. `nextId` numbers the next `new Chart(...)`. -/
structure ChartState where
  currentChart : Option Nat
  liveCharts : List Nat
  nextId : Nat
deriving DecidableEq, Repr

/-- Page-load state: `currentChart = null`, no instance created. -/
def initChartState : ChartState :=
  { currentChart := none, liveCharts := [], nextId := 0 }

/-- One `loadChart` call (app.js lines 245-333) with the given fetch outcome.
On success: `if (currentChart) currentChart.destroy();` (lines 253-255), then
`currentChart = new Chart(ctx, ...)` (line 263) creates and records a fresh
instance. On failure the catch (lines 330-332) only logs; nothing changes. -/
def loadChartStep (fetchOk : Bool) (s : ChartState) : ChartState :=
  if fetchOk then
    let afterDestroy :=
      match s.currentChart with
      | some c => s.liveCharts.filter (fun x => x != c)
      | none => s.liveCharts
    { currentChart := some s.nextId
      liveCharts := afterDestroy ++ [s.nextId]
      nextId := s.nextId + 1 }
  else s

/-- A sequence of `loadChart` calls from page load, each with its fetch
outcome. -/
def runLoadCharts (fetches : List Bool) : ChartState :=
  fetches.foldl (fun s fetchOk => loadChartStep fetchOk s) initChartState

-- ========================================
-- loadMetrics (app.js lines 165-239)
-- ========================================

/-- One `.metric-item` row (or the sentiment bar) of the rendered metrics
block, carrying the response values it interpolates. -/
inductive MetricRow where
  | currentPrice (price : ℚ) (currency : String)
  | todaysChange (day_change day_change_pct : ℚ)
  | sixMonthChange (pct : ℚ)
  | high52w (v : ℚ) (currency : String)
  | low52w (v : ℚ) (currency : String)
  | marketCap (v : ℚ)
  | volumeRow (v : ℚ)
  | peRatio (v : ℚ)
  | sentimentScoreRow (v : ℚ)
  | sentimentBar (widthPercent : ℚ)
deriving DecidableEq, Repr

/-- A `${data.field ? `...row...` : ''}` segment of the template literal at
app.js lines 197-226: the row is emitted only when the field is truthy in
JavaScript, i.e. present and nonzero (an absent field is `undefined`, falsy;
a present `0` is falsy too). -/
def optionalRow (v : Option ℚ) (mk : ℚ → MetricRow) : List MetricRow :=
  match v with
  | some x => if x != 0 then [mk x] else []
  | none => []

/-- The rows of the metrics block built at app.js lines 180-234, merging the
`/metrics` response `data` with the `/analyze` response `analysisData`. -/
def renderMetrics (data : MetricsSnapshot) (analysisData : AnalysisResult) :
    List MetricRow :=
  [MetricRow.currentPrice data.current_price data.currency,
   MetricRow.todaysChange data.day_change data.day_change_pct,
   MetricRow.sixMonthChange analysisData.price_change_6m]
  ++ optionalRow data.high_52w (fun x => MetricRow.high52w x data.currency)
  ++ optionalRow data.low_52w (fun x => MetricRow.low52w x data.currency)
  ++ optionalRow data.market_cap MetricRow.marketCap
  ++ optionalRow data.volume MetricRow.volumeRow
  ++ optionalRow data.pe_ratio MetricRow.peRatio
  ++ [MetricRow.sentimentScoreRow analysisData.sentiment_score,
      MetricRow.sentimentBar (sentimentPercent analysisData.sentiment_score)]

/-- What a successful `loadMetrics(symbol)` run produces: the requests it
issued, in order, and the rendered rows. -/
structure MetricsRender where
  requests : List Request
  rows : List MetricRow
deriving DecidableEq, Repr

/-- `loadMetrics(symbol)` from app.js lines 165-239 on the success path: a
`GET /metrics/{symbol}` (line 170), then a `GET /analyze/{symbol}` (line 174)
whose `sentiment_score` feeds the sentiment row and bar, merged into one
rendered block. -/
def loadMetrics (symbol : String) (data : MetricsSnapshot)
    (analysisData : AnalysisResult) : MetricsRender :=
  { requests := [Request.get ("/metrics/" ++ symbol),
                 Request.get ("/analyze/" ++ symbol)]
    rows := renderMetrics data analysisData }

-- ========================================
-- container contents and the failure paths
-- ========================================

/-- The four result containers the load functions write into:
`#trendingStocks`, `#metricsContent`, `#newsContent`, and the chart canvas
area. Each is modelled by its rendered content. -/
structure Containers where
  trendingStocks : String
  metricsContent : String
  newsContent : String
  chartArea : String
deriving DecidableEq, Repr

/-- The failure markup written at app.js line 65. -/
def trendingFailureMsg : String :=
  "<p style=\"text-align: center; color: #ef4444;\">Failed to load trending stocks</p>"

/-- The failure markup written at app.js line 237. -/
def metricsFailureMsg : String :=
  "<p style=\"color: #ef4444;\">Failed to load metrics</p>"

/-- The failure markup written at app.js line 364. -/
def newsFailureMsg : String :=
  "<div style=\"text-align: center; padding: 2rem; color: var(--danger-text);\">Failed to load news</div>"

/-- The catch block of `loadTrendingStocks` (app.js lines 63-66): writes the
failure markup into `#trendingStocks` and touches nothing else. -/
def loadTrendingStocksOnFailure (c : Containers) : Containers :=
  { c with trendingStocks := trendingFailureMsg }

/-- The catch block of `loadMetrics` (app.js lines 235-238): writes the
failure markup into `#metricsContent` and touches nothing else. -/
def loadMetricsOnFailure (c : Containers) : Containers :=
  { c with metricsContent := metricsFailureMsg }

/-- The catch block of `loadNews` (app.js lines 362-365): writes the failure
markup into `#newsContent` and touches nothing else. -/
def loadNewsOnFailure (c : Containers) : Containers :=
  { c with newsContent := newsFailureMsg }

/-- The catch block of `loadChart` (app.js lines 330-332): it only calls
`console.error`; no container is written at all. -/
def loadChartOnFailure (c : Containers) : Containers :=
  c

/-- Containers as the page starts: all empty. -/
def initContainers : Containers :=
  { trendingStocks := "", metricsContent := "", newsContent := "", chartArea := "" }

-- ========================================
-- concrete sample inputs
-- ========================================

/-- A session state as it stands after some earlier successful analysis. -/
def sessionBefore : SessionState :=
  { currentSymbol := some "TSLA", currentCompanyName := some "Tesla, Inc." }

/-- A metrics response whose `market_cap` is present with value `0`. -/
def metricsZeroCap : MetricsSnapshot :=
  { current_price := 100, currency := "USD", day_change := 1, day_change_pct := 1,
    high_52w := none, low_52w := none, market_cap := some 0, volume := none,
    pe_ratio := none }

/-- A concrete analysis response. -/
def analysisSample : AnalysisResult :=
  { symbol := "AAPL", company_name := "Apple Inc.", exchange := "NASDAQ",
    decision := "BUY", explanation := "strong momentum",
    sentiment_score := 1/2, price_change_6m := 12 }

/-- Whether a rendered row is the Market Cap row, whatever value it carries. -/
def MetricRow.isMarketCapRow : MetricRow → Bool
  | MetricRow.marketCap _ => true
  | _ => false

-- ========================================
-- theorems
-- ========================================

/-- Helper: membership in an optional-row segment of the metrics template:
the row is there exactly when the field is present with a nonzero value and
the row is built from that value. -/
theorem mem_optionalRow (r : MetricRow) (v : Option ℚ) (mk : ℚ → MetricRow) :
    r ∈ optionalRow v mk ↔ ∃ x, v = some x ∧ x ≠ 0 ∧ r = mk x := by
  cases v with
  | none => simp [optionalRow]
  | some x =>
    by_cases hx : x = 0
    · subst hx; simp [optionalRow]
    · simp [optionalRow, hx]

/-- C2: for every `AnalysisResult` whose decision is BUY, SELL or HOLD,
`displayResults` sets the banner class to exactly
`'decision-banner decision-'` plus the lowercased decision, and the icon by
the fixed 1:1 mapping BUY ↦ chart-up, SELL ↦ chart-down, HOLD ↦ pause. -/
theorem displayResults_banner_mapping (data : AnalysisResult)
    (h : data.decision = "BUY" ∨ data.decision = "SELL" ∨ data.decision = "HOLD") :
    ((displayResults data).className, (displayResults data).icon) =
      (if data.decision = "BUY" then ("decision-banner decision-buy", chartUpIcon)
       else if data.decision = "SELL" then ("decision-banner decision-sell", chartDownIcon)
       else ("decision-banner decision-hold", pauseIcon)) := by
  rcases h with h | h | h <;> simp only [displayResults] <;> rw [h] <;> decide

/-- Witness for C2 at a concrete BUY result. -/
theorem displayResults_banner_mapping_witness :
    (analysisSample.decision = "BUY" ∨ analysisSample.decision = "SELL" ∨
      analysisSample.decision = "HOLD") ∧
    ((displayResults analysisSample).className, (displayResults analysisSample).icon) =
      (if analysisSample.decision = "BUY" then ("decision-banner decision-buy", chartUpIcon)
       else if analysisSample.decision = "SELL" then ("decision-banner decision-sell", chartDownIcon)
       else ("decision-banner decision-hold", pauseIcon)) :=
  ⟨Or.inl rfl, displayResults_banner_mapping analysisSample (Or.inl rfl)⟩

/-- C3: for every sentiment score in [-1,1] the bar width is
`((score+1)/2)*100`; it is 0 at -1, 50 at 0, 100 at 1, and never leaves
[0,100] for in-range scores. -/
theorem sentimentPercent_linear_range (score : ℚ)
    (h1 : -1 ≤ score) (h2 : score ≤ 1) :
    sentimentPercent score = ((score + 1) / 2) * 100 ∧
    0 ≤ sentimentPercent score ∧ sentimentPercent score ≤ 100 ∧
    sentimentPercent (-1) = 0 ∧ sentimentPercent 0 = 50 ∧
    sentimentPercent 1 = 100 := by
  have hval : sentimentPercent score = 50 * score + 50 := by
    unfold sentimentPercent; ring
  refine ⟨rfl, ?_, ?_, by norm_num [sentimentPercent], by norm_num [sentimentPercent],
    by norm_num [sentimentPercent]⟩
  · rw [hval]; linarith
  · rw [hval]; linarith

/-- Witness for C3 at score 0. -/
theorem sentimentPercent_linear_range_witness :
    ((-1 : ℚ) ≤ 0 ∧ (0 : ℚ) ≤ 1) ∧
    (sentimentPercent 0 = ((0 + 1) / 2) * 100 ∧
     0 ≤ sentimentPercent 0 ∧ sentimentPercent 0 ≤ 100 ∧
     sentimentPercent (-1) = 0 ∧ sentimentPercent 0 = 50 ∧
     sentimentPercent 1 = 100) :=
  ⟨⟨by norm_num, by norm_num⟩,
   sentimentPercent_linear_range 0 (by norm_num) (by norm_num)⟩

/-- C4: with fewer than 2 non-empty trimmed entries `compareStocks` alerts
and issues no request; with more than 4 it alerts and issues no request;
otherwise it posts exactly the non-empty entries to `/compare`. -/
theorem compareStocks_count_bounds (input1 input2 input3 input4 : String) :
    ((collectStocks input1 input2 input3 input4).length < 2 →
      compareStocks input1 input2 input3 input4 = CompareOutcome.alertAtLeast2) ∧
    (4 < (collectStocks input1 input2 input3 input4).length →
      compareStocks input1 input2 input3 input4 = CompareOutcome.alertMax4) ∧
    (2 ≤ (collectStocks input1 input2 input3 input4).length ∧
        (collectStocks input1 input2 input3 input4).length ≤ 4 →
      compareStocks input1 input2 input3 input4 =
        CompareOutcome.request
          (Request.post "/compare" (collectStocks input1 input2 input3 input4))) := by
  refine ⟨?_, ?_, ?_⟩
  · intro h; simp [compareStocks, h]
  · intro h
    have h2 : ¬ (collectStocks input1 input2 input3 input4).length < 2 := by omega
    simp [compareStocks, h, h2]
  · rintro ⟨hlo, hhi⟩
    have h2 : ¬ (collectStocks input1 input2 input3 input4).length < 2 := by omega
    have h4 : ¬ (collectStocks input1 input2 input3 input4).length > 4 := by omega
    simp [compareStocks, h2, h4]

/-- C5: when the lookup fails in any of the three ways, `analyzeStock`
surfaces the not-found alert and both session variables keep their prior
values. -/
theorem analyzeStock_failure_preserves_session (stockInput : String)
    (lookup : FetchResult AnalysisResult) (st : SessionState) (btn : ButtonState)
    (hne : ¬ strTrim stockInput = "")
    (hfail : lookup = FetchResult.networkError ∨ lookup = FetchResult.notOk ∨
      lookup = FetchResult.badBody) :
    (analyzeStock stockInput lookup st btn).outcome = AnalyzeOutcome.alertNotFound ∧
    (analyzeStock stockInput lookup st btn).session.currentSymbol = st.currentSymbol ∧
    (analyzeStock stockInput lookup st btn).session.currentCompanyName =
      st.currentCompanyName := by
  rcases hfail with h | h | h <;> subst h <;> simp [analyzeStock, hne]

/-- Witness for C5: a network error on a non-empty query leaves the prior
Tesla session untouched. -/
theorem analyzeStock_failure_preserves_session_witness :
    (¬ strTrim "AAPL" = "") ∧
    ((analyzeStock "AAPL" FetchResult.networkError sessionBefore idleButton).outcome =
        AnalyzeOutcome.alertNotFound ∧
     (analyzeStock "AAPL" FetchResult.networkError sessionBefore idleButton).session.currentSymbol =
        sessionBefore.currentSymbol ∧
     (analyzeStock "AAPL" FetchResult.networkError sessionBefore idleButton).session.currentCompanyName =
        sessionBefore.currentCompanyName) :=
  ⟨by decide,
   analyzeStock_failure_preserves_session "AAPL" FetchResult.networkError
     sessionBefore idleButton (by decide) (Or.inl rfl)⟩

/-- C9: every terminated `analyzeStock` run that starts from the idle button
state leaves the button enabled, text shown, loader hidden — on the empty-input
early return, on success, and on failure alike. -/
theorem analyzeStock_button_idle_after_run (stockInput : String)
    (lookup : FetchResult AnalysisResult) (st : SessionState) (btn : ButtonState)
    (hidle : btn = idleButton) :
    (analyzeStock stockInput lookup st btn).button = idleButton := by
  subst hidle
  by_cases h : strTrim stockInput == ""
  · simp [analyzeStock, h]
  · cases lookup <;> simp [analyzeStock, h]

/-- Witness for C9 on the empty-input early return. -/
theorem analyzeStock_button_idle_after_run_witness :
    idleButton = idleButton ∧
    (analyzeStock "" FetchResult.networkError sessionBefore idleButton).button =
      idleButton :=
  ⟨rfl,
   analyzeStock_button_idle_after_run "" FetchResult.networkError sessionBefore
     idleButton rfl⟩

/-- The chart bookkeeping invariant: at most one instance is live, a live
instance is the recorded one, and the recorded one was created before
`nextId`. -/
def chartInv (s : ChartState) : Prop :=
  s.liveCharts.length ≤ 1 ∧
  (∀ x ∈ s.liveCharts, s.currentChart = some x) ∧
  (∀ c, s.currentChart = some c → c < s.nextId)

/-- Helper: the page-load chart state satisfies the invariant. -/
theorem chartInv_init : chartInv initChartState := by
  refine ⟨by simp [initChartState], ?_, ?_⟩ <;> simp [initChartState]

/-- Helper: one `loadChart` call preserves the chart invariant, and a
successful call on a state with a recorded instance destroys that instance
and leaves only the fresh one live. -/
theorem chartInv_step (fetchOk : Bool) (s : ChartState) (h : chartInv s) :
    chartInv (loadChartStep fetchOk s) ∧
    (fetchOk = true → ∀ c, s.currentChart = some c →
      (loadChartStep fetchOk s).liveCharts = [s.nextId] ∧
      c ∉ (loadChartStep fetchOk s).liveCharts) := by
  obtain ⟨hlen, hcur, hlt⟩ := h
  cases fetchOk with
  | false =>
    refine ⟨⟨hlen, hcur, hlt⟩, ?_⟩
    intro hcontra; exact absurd hcontra (by simp)
  | true =>
    have hdestroyed : ∀ c, s.currentChart = some c →
        s.liveCharts.filter (fun x => x != c) = [] := by
      intro c hc
      cases hl : s.liveCharts with
      | nil => rfl
      | cons a t =>
        have ht : t = [] := by
          have := hlen; rw [hl] at this; simp at this; exact this
        subst ht
        have ha : s.currentChart = some a := hcur a (by rw [hl]; simp)
        rw [hc] at ha
        have : c = a := by injection ha
        subst this
        simp
    constructor
    · cases hc : s.currentChart with
      | none =>
        have hnil : s.liveCharts = [] := by
          cases hl : s.liveCharts with
          | nil => rfl
          | cons a t =>
            have := hcur a (by rw [hl]; simp)
            rw [hc] at this
            exact absurd this (by simp)
        refine ⟨?_, ?_, ?_⟩ <;> simp [loadChartStep, hc, hnil]
      | some c =>
        refine ⟨?_, ?_, ?_⟩ <;> simp [loadChartStep, hc, hdestroyed c hc]
    · intro _ c hc
      have hf := hdestroyed c hc
      have hne : c ≠ s.nextId := by
        have := hlt c hc; omega
      constructor
      · simp [loadChartStep, hc, hf]
      · simp [loadChartStep, hc, hf, hne]

/-- Helper: the invariant holds after folding any sequence of calls from an
invariant state. -/
theorem chartInv_foldl (fetches : List Bool) (s : ChartState) (h : chartInv s) :
    chartInv (fetches.foldl (fun s fetchOk => loadChartStep fetchOk s) s) := by
  induction fetches generalizing s with
  | nil => exact h
  | cons b t ih => exact ih _ (chartInv_step b s h).1

/-- C6: after any sequence of `loadChart` calls from page load, at most one
chart instance is live, every live instance is the recorded `currentChart`,
and a further successful call destroys the recorded instance before the new
one is constructed and recorded, leaving only the fresh instance live. -/
theorem loadChart_at_most_one_live (fetches : List Bool) :
    (runLoadCharts fetches).liveCharts.length ≤ 1 ∧
    (∀ x ∈ (runLoadCharts fetches).liveCharts,
      (runLoadCharts fetches).currentChart = some x) ∧
    (∀ c, (runLoadCharts fetches).currentChart = some c →
      (loadChartStep true (runLoadCharts fetches)).liveCharts =
        [(runLoadCharts fetches).nextId] ∧
      c ∉ (loadChartStep true (runLoadCharts fetches)).liveCharts) := by
  have hinv : chartInv (runLoadCharts fetches) :=
    chartInv_foldl fetches initChartState chartInv_init
  refine ⟨hinv.1, hinv.2.1, ?_⟩
  intro c hc
  exact (chartInv_step true (runLoadCharts fetches) hinv).2 rfl c hc

/-- C7: a successful `loadMetrics(symbol)` issues exactly the two requests
`GET /metrics/{symbol}` then `GET /analyze/{symbol}`, and merges both
responses into the single rendered block: the metrics price row, the
analysis-derived sentiment row and bar all appear in it. -/
theorem loadMetrics_two_requests_merged (symbol : String)
    (data : MetricsSnapshot) (analysisData : AnalysisResult) :
    (loadMetrics symbol data analysisData).requests =
      [Request.get ("/metrics/" ++ symbol), Request.get ("/analyze/" ++ symbol)] ∧
    (loadMetrics symbol data analysisData).requests.length = 2 ∧
    MetricRow.currentPrice data.current_price data.currency ∈
      (loadMetrics symbol data analysisData).rows ∧
    MetricRow.sixMonthChange analysisData.price_change_6m ∈
      (loadMetrics symbol data analysisData).rows ∧
    MetricRow.sentimentScoreRow analysisData.sentiment_score ∈
      (loadMetrics symbol data analysisData).rows ∧
    MetricRow.sentimentBar (sentimentPercent analysisData.sentiment_score) ∈
      (loadMetrics symbol data analysisData).rows := by
  refine ⟨rfl, rfl, ?_, ?_, ?_, ?_⟩ <;> simp [loadMetrics, renderMetrics]

/-- C8 counterexample: a metrics response whose `market_cap` is present with
value `0` renders no Market Cap row at all, refuting "each present field
yields its row" (JavaScript truthiness drops a present zero). -/
theorem marketCap_present_zero_row_omitted :
    metricsZeroCap.market_cap = some 0 ∧
    (renderMetrics metricsZeroCap analysisSample).all
      (fun r => ! r.isMarketCapRow) = true :=
  ⟨rfl, by decide⟩

/-- C8 amended: an optional metric row is rendered iff its field is present
with a nonzero value (absent fields yield no row, and so does a present zero,
by JavaScript truthiness); no row is ever rendered empty. -/
theorem optional_metric_rows_iff_truthy (data : MetricsSnapshot)
    (analysisData : AnalysisResult) (v : ℚ) :
    (MetricRow.high52w v data.currency ∈ renderMetrics data analysisData ↔
      data.high_52w = some v ∧ v ≠ 0) ∧
    (MetricRow.low52w v data.currency ∈ renderMetrics data analysisData ↔
      data.low_52w = some v ∧ v ≠ 0) ∧
    (MetricRow.marketCap v ∈ renderMetrics data analysisData ↔
      data.market_cap = some v ∧ v ≠ 0) ∧
    (MetricRow.volumeRow v ∈ renderMetrics data analysisData ↔
      data.volume = some v ∧ v ≠ 0) ∧
    (MetricRow.peRatio v ∈ renderMetrics data analysisData ↔
      data.pe_ratio = some v ∧ v ≠ 0) := by
  refine ⟨?_, ?_, ?_, ?_, ?_⟩ <;>
    simp [renderMetrics, mem_optionalRow]

/-- C10: the collected comparison list never exceeds 4 entries, so the
`'Maximum 4 stocks'` branch of `compareStocks` is unreachable for every
possible input. -/
theorem compareStocks_max4_unreachable (input1 input2 input3 input4 : String) :
    (collectStocks input1 input2 input3 input4).length ≤ 4 ∧
    compareStocks input1 input2 input3 input4 ≠ CompareOutcome.alertMax4 := by
  have hlen : (collectStocks input1 input2 input3 input4).length ≤ 4 := by
    have h := List.length_filter_le (fun s => s != "")
      [strTrim input1, strTrim input2, strTrim input3, strTrim input4]
    simpa [collectStocks] using h
  refine ⟨hlen, ?_⟩
  have h4 : ¬ (collectStocks input1 input2 input3 input4).length > 4 := by omega
  by_cases h2 : (collectStocks input1 input2 input3 input4).length < 2
  · simp [compareStocks, h2]
  · simp [compareStocks, h2, h4]

/-- C1 counterexample: `loadChart`'s catch block writes no failure message —
the chart container is left exactly as it was, refuting "the operation's own
container is set to its designated inline failure message" for `loadChart`. -/
theorem loadChart_failure_writes_no_message :
    loadChartOnFailure initContainers = initContainers ∧
    (loadChartOnFailure initContainers).chartArea = "" ∧
    (loadChartOnFailure initContainers).chartArea ≠ "Failed to load chart" :=
  ⟨rfl, rfl, by decide⟩

/-- C1 amended: a failing `loadTrendingStocks`, `loadMetrics` or `loadNews`
sets its own container to its designated "Failed to load X" markup and leaves
every other container unchanged; a failing `loadChart` is caught but only
logs, leaving every container — its own included — unchanged. -/
theorem fetch_failure_isolated (c : Containers) :
    (loadTrendingStocksOnFailure c).trendingStocks = trendingFailureMsg ∧
    (loadTrendingStocksOnFailure c).metricsContent = c.metricsContent ∧
    (loadTrendingStocksOnFailure c).newsContent = c.newsContent ∧
    (loadTrendingStocksOnFailure c).chartArea = c.chartArea ∧
    (loadMetricsOnFailure c).metricsContent = metricsFailureMsg ∧
    (loadMetricsOnFailure c).trendingStocks = c.trendingStocks ∧
    (loadMetricsOnFailure c).newsContent = c.newsContent ∧
    (loadMetricsOnFailure c).chartArea = c.chartArea ∧
    (loadNewsOnFailure c).newsContent = newsFailureMsg ∧
    (loadNewsOnFailure c).trendingStocks = c.trendingStocks ∧
    (loadNewsOnFailure c).metricsContent = c.metricsContent ∧
    (loadNewsOnFailure c).chartArea = c.chartArea ∧
    loadChartOnFailure c = c :=
  ⟨rfl, rfl, rfl, rfl, rfl, rfl, rfl, rfl, rfl, rfl, rfl, rfl, rfl⟩
